import Mathlib

/-!
Verification of the error classification and translation pipeline of the
Go-backend-starter repository.

Strings are modelled as lists of Unicode code points (`List Nat`), matching
the rune-sequence view Go string functions operate on; the identifiers and
messages handled by this pipeline are ASCII, and the case mappings of
`strings.ToLower` / `strings.ToUpper` / `golang.org/x/text/cases.Title`
are modelled on the ASCII range.
-/

namespace GoStarter

/-- Go strings, as sequences of code points. -/
abbrev GoStr := List Nat

/-- Embed a Lean string literal as a `GoStr`. -/
def gostr (s : String) : GoStr := s.toList.map Char.toNat

/-- ASCII lower-casing of one code point (model of Go `unicode.ToLower` on ASCII). -/
def asciiLower (n : Nat) : Nat := if 65 ≤ n ∧ n ≤ 90 then n + 32 else n

/-- ASCII upper-casing of one code point (model of Go `unicode.ToUpper` on ASCII). -/
def asciiUpper (n : Nat) : Nat := if 97 ≤ n ∧ n ≤ 122 then n - 32 else n

/-- Model of `strings.ToLower` (ASCII range). -/
def toLowerStr (s : GoStr) : GoStr := s.map asciiLower

/-- Model of `strings.ToUpper` (ASCII range). -/
def toUpperStr (s : GoStr) : GoStr := s.map asciiUpper

/-- Model of `strings.HasPrefix s pre`. -/
def goStartsWith (s pre : GoStr) : Bool := s.take pre.length == pre

/-- Model of `strings.HasSuffix s suffix`. -/
def goHasSuffix (s suffix : GoStr) : Bool :=
  s.drop (s.length - suffix.length) == suffix

/-- Model of `strings.TrimSuffix s suffix`. -/
def goTrimSuffix (s suffix : GoStr) : GoStr :=
  if goHasSuffix s suffix then s.take (s.length - suffix.length) else s

/-- Model of `strings.Contains s sub`. -/
def goContains (s sub : GoStr) : Bool :=
  goStartsWith s sub ||
    match s with
    | [] => false
    | _ :: cs => goContains cs sub

/-- Fuel-indexed worker for `strings.Split` with a non-empty separator.
Each step consumes at least one element of `s`, so `fuel = s.length` is
always sufficient; the fuel only makes the recursion structural. -/
def splitSubFuel (sep : GoStr) : Nat → GoStr → List GoStr
  | 0, _ => [[]]
  | _ + 1, [] => [[]]
  | fuel + 1, c :: cs =>
    if goStartsWith (c :: cs) sep ∧ sep ≠ [] then
      [] :: splitSubFuel sep fuel ((c :: cs).drop sep.length)
    else
      match splitSubFuel sep fuel cs with
      | [] => [[c]]
      | g :: gs => (c :: g) :: gs

/-- Model of Go `strings.Split s sep` (call sites only use non-empty separators). -/
def splitSub (s sep : GoStr) : List GoStr := splitSubFuel sep s.length s

/-- Fuel-indexed worker for `strings.ReplaceAll` with a non-empty pattern. -/
def replaceAllFuel (old new : GoStr) : Nat → GoStr → GoStr
  | 0, s => s
  | _ + 1, [] => []
  | fuel + 1, c :: cs =>
    if goStartsWith (c :: cs) old ∧ old ≠ [] then
      new ++ replaceAllFuel old new fuel ((c :: cs).drop old.length)
    else
      c :: replaceAllFuel old new fuel cs

/-- Model of Go `strings.ReplaceAll s old new` (call sites only use non-empty `old`). -/
def replaceAllG (s old new : GoStr) : GoStr := replaceAllFuel old new s.length s

/-- One code point of `strings.ReplaceAll text "_" " "`. -/
def underscoreToSpace (n : Nat) : Nat := if n = 95 then 32 else n

/-- Title-casing worker: model of `cases.Title(language.English)` on a
space-separated ASCII text; the first letter of each word is upper-cased and
the following letters are lower-cased. -/
def titleCaseAux : Bool → GoStr → GoStr
  | _, [] => []
  | atStart, c :: cs =>
    if c = 32 then 32 :: titleCaseAux true cs
    else (if atStart then asciiUpper c else asciiLower c) :: titleCaseAux false cs

/-! ## Storage error taxonomy (internal/sqlerr/errors.go) -/

/-- The `sqlerr.Code` taxonomy of storage error kinds. -/
inductive Code where
  | Other
  | DeadlockDetected
  | NotNullViolation
  | TransactionFailed
  | CheckViolation
  | UniqueViolation
  | ExcludeViolation
  | ForeignKeyViolation
  | TooManyConnections
deriving DecidableEq

/-- `sqlerr.MapDatabaseErrorCode`: SQLSTATE code string to `Code`. -/
def MapDatabaseErrorCode (code : GoStr) : Code :=
  if code = gostr "40P01" then .DeadlockDetected
  else if code = gostr "23502" then .NotNullViolation
  else if code = gostr "52P02" then .TransactionFailed
  else if code = gostr "23514" then .CheckViolation
  else if code = gostr "23505" then .UniqueViolation
  else if code = gostr "23P01" then .ExcludeViolation
  else if code = gostr "23503" then .ForeignKeyViolation
  else if code = gostr "53300" then .TooManyConnections
  else .Other

/-- The `sqlerr.Severity` taxonomy of storage engine severity labels. -/
inductive Severity where
  | sError
  | sLog
  | sFatal
  | sPanic
  | sDebug
  | sInfo
  | sWarning
  | sNotice
deriving DecidableEq

/-- `sqlerr.MapDatabaseSeverity`: engine severity label to `Severity`. -/
def MapDatabaseSeverity (severity : GoStr) : Severity :=
  if severity = gostr "ERROR" then .sError
  else if severity = gostr "LOG" then .sLog
  else if severity = gostr "FATAL" then .sFatal
  else if severity = gostr "PANIC" then .sPanic
  else if severity = gostr "DEBUG" then .sDebug
  else if severity = gostr "INFO" then .sInfo
  else if severity = gostr "WARNING" then .sWarning
  else if severity = gostr "NOTICE" then .sWarning
  else .sError

/-! ## Domain error envelope (internal/errs) -/

/-- `errs.Action`: a remedial-step hint attached to an envelope. -/
structure Action where
  type : GoStr
  message : GoStr
  value : GoStr
deriving DecidableEq

/-- `errs.FieldError`: a per-input-field error. -/
structure FieldError where
  field : GoStr
  error : GoStr
deriving DecidableEq

/-- `errs.HttpError`: the structured error envelope crossing the wire.
Field names follow the Go struct (`Code`, `Status`, `Message`, `Override`,
`Action`, `Errors`) in lower case; a `nil` slice or pointer is modelled as
`[]` or `none`. -/
structure HttpError where
  code : GoStr
  status : Nat
  message : GoStr
  override : Bool
  action : Option Action
  errors : List FieldError
deriving DecidableEq

/-- Model of the Go standard library `net/http.StatusText`, restricted to the
status codes this pipeline produces (400, 404, 500); Go returns the empty
string for unknown codes. -/
def statusText (code : Nat) : GoStr :=
  if code = 400 then gostr "Bad Request"
  else if code = 404 then gostr "Not Found"
  else if code = 500 then gostr "Internal Server Error"
  else []

/-- `errs.MakeUpperCaseWithUnderscores`. -/
def MakeUpperCaseWithUnderscores (s : GoStr) : GoStr :=
  toUpperStr (replaceAllG s (gostr " ") (gostr "_"))

/-- `errs.BadRequestError`. -/
def BadRequestError (message : GoStr) (override : Bool) (code : Option GoStr)
    (errors : List FieldError) (action : Option Action) : HttpError :=
  { code := code.getD (MakeUpperCaseWithUnderscores (statusText 400))
    status := 400
    message := message
    override := override
    errors := errors
    action := action }

/-- `errs.InternalServerError`. -/
def InternalServerError : HttpError :=
  { code := MakeUpperCaseWithUnderscores (statusText 500)
    status := 500
    message := statusText 500
    override := false
    errors := []
    action := none }

/-- `errs.NotFoundError`. -/
def NotFoundError (message : GoStr) (override : Bool) (code : Option GoStr) : HttpError :=
  { code := code.getD (MakeUpperCaseWithUnderscores (statusText 404))
    status := 404
    message := message
    override := override
    errors := []
    action := none }

/-- `errs.HttpError.WithMessage`: a fresh envelope with the message swapped
and every other field copied; the receiver is not mutated (Go builds and
returns a new `*HttpError`). -/
def WithMessage (e : HttpError) (message : GoStr) : HttpError :=
  { code := e.code
    status := e.status
    message := message
    override := e.override
    action := e.action
    errors := e.errors }

/-! ## Storage errors and their classification (internal/sqlerr) -/

/-- The driver error `pgconn.PgError`, restricted to the fields this
pipeline reads. -/
structure PgError where
  code : GoStr
  severity : GoStr
  message : GoStr
  schemaName : GoStr
  tableName : GoStr
  columnName : GoStr
  dataTypeName : GoStr
  constraintName : GoStr
deriving DecidableEq

/-- `sqlerr.Error`: the structured storage error (the wrapped driver error is
kept for unwrap/inspection). -/
structure SqlError where
  kind : Code
  severity : Severity
  databaseCode : GoStr
  message : GoStr
  schemaName : GoStr
  tableName : GoStr
  columnName : GoStr
  dataTypeName : GoStr
  constraintName : GoStr
  driverErr : PgError
deriving DecidableEq

/-- `sqlerr.ConvertPgError`. -/
def ConvertPgError (src : PgError) : SqlError :=
  { kind := MapDatabaseErrorCode src.code
    severity := MapDatabaseSeverity src.severity
    databaseCode := src.code
    message := src.message
    schemaName := src.schemaName
    tableName := src.tableName
    columnName := src.columnName
    dataTypeName := src.dataTypeName
    constraintName := src.constraintName
    driverErr := src }

/-- `sqlerr.generateErrorCode`: `TABLENAME_ACTION` error code strings. -/
def generateErrorCode (tableName : GoStr) (errType : Code) : GoStr :=
  let t := if tableName = [] then gostr "RECORD" else tableName
  let domain := toUpperStr t
  let domain :=
    if goHasSuffix domain (gostr "S") ∧ domain.length > 1 then
      domain.take (domain.length - 1)
    else domain
  let action :=
    match errType with
    | .ForeignKeyViolation => gostr "NOT_FOUND"
    | .UniqueViolation => gostr "ALREADY_EXISTS"
    | .NotNullViolation => gostr "REQUIRED"
    | .CheckViolation => gostr "INVALID"
    | _ => gostr "ERROR"
  domain ++ gostr "_" ++ action

/-- `sqlerr.humanizeText`: snake_case to title-cased human text. -/
def humanizeText (text : GoStr) : GoStr :=
  if text = [] then []
  else titleCaseAux true (text.map underscoreToSpace)

/-- `sqlerr.getEntityName`: entity name from table/column identifiers. -/
def getEntityName (tableName columnName : GoStr) : GoStr :=
  if columnName ≠ [] ∧ goHasSuffix (toLowerStr columnName) (gostr "_id") then
    humanizeText (goTrimSuffix (toLowerStr columnName) (gostr "_id"))
  else if tableName ≠ [] then
    humanizeText
      (if goHasSuffix tableName (gostr "s") ∧ tableName.length > 1 then
        tableName.take (tableName.length - 1)
      else tableName)
  else gostr "record"

/-- `sqlerr.formatUserFriendlyMessage`. -/
def formatUserFriendlyMessage (sqlErr : SqlError) : GoStr :=
  let entityName := getEntityName sqlErr.tableName sqlErr.columnName
  match sqlErr.kind with
  | .ForeignKeyViolation => gostr "The referenced " ++ entityName ++ gostr " does not exist"
  | .UniqueViolation => gostr "A " ++ entityName ++ gostr " with this identifier already exists"
  | .NotNullViolation =>
    let fieldName := humanizeText sqlErr.columnName
    let fieldName := if fieldName = [] then gostr "field" else fieldName
    gostr "The " ++ fieldName ++ gostr " is required"
  | .CheckViolation =>
    let fieldName := humanizeText sqlErr.columnName
    if fieldName ≠ [] then
      gostr "The " ++ fieldName ++ gostr " value does not meet required conditions"
    else gostr "One or more values do not meet required conditions"
  | _ => gostr "An error occurred while processing your request"

/-- The regular expression step of `sqlerr.extractColumnForUniqueViolation`:
a match of the anchored pattern for a trailing underscore-field-underscore
followed by the word key or ukey; the captured field is the maximal
underscore-free run right before that suffix, and the match requires the
underscore in front of it. -/
def regexKeyCapture (constraintName : GoStr) : GoStr :=
  let trySuffix : GoStr → GoStr := fun suffix =>
    if goHasSuffix constraintName suffix then
      let rest := constraintName.take (constraintName.length - suffix.length)
      let f := (rest.reverse.takeWhile (fun c => c ≠ 95)).reverse
      if f ≠ [] ∧ f.length < rest.length then f else []
    else []
  let viaUkey := trySuffix (gostr "_ukey")
  if viaUkey ≠ [] then viaUkey else trySuffix (gostr "_key")

/-- `sqlerr.extractColumnForUniqueViolation`. -/
def extractColumnForUniqueViolation (constraintName : GoStr) : GoStr :=
  if constraintName = [] then []
  else if goStartsWith constraintName (gostr "unique_") ∧
      (splitSub constraintName (gostr "_")).length ≥ 3 then
    (splitSub constraintName (gostr "_")).getLastD []
  else regexKeyCapture constraintName

/-! ## Error values and the boundary resolver

A Go error value is modelled by its `errors.Unwrap` chain: the list of nodes
the standard `errors.As` / `errors.Is` walk visits, in order, plus the text
its `Error()` method returns.  `errors.As` picks the first node of the asked
type; `errors.Is` against the no-rows sentinels holds when the chain contains
the sentinel node. -/

/-- One node of an error chain: a domain envelope, a driver storage error,
a transport-framework (echo) error carrying a status code and an optional
string message, the no-rows sentinel (`pgx.ErrNoRows` / `sql.ErrNoRows`),
or any other error value. -/
inductive ErrNode where
  | http (e : HttpError)
  | pg (p : PgError)
  | echo (code : Nat) (message : Option GoStr)
  | noRowsSentinel
  | plain
deriving DecidableEq

/-- A Go error value: its unwrap chain and its `Error()` text. -/
structure GoError where
  nodes : List ErrNode
  msg : GoStr
deriving DecidableEq

/-- `errors.As(err, &httpErr)` with `httpErr : *errs.HttpError`. -/
def asHttp (err : GoError) : Option HttpError :=
  err.nodes.findSome? fun n =>
    match n with
    | .http e => some e
    | _ => none

/-- `errors.As(err, &pgerr)` with `pgerr : *pgconn.PgError`. -/
def asPg (err : GoError) : Option PgError :=
  err.nodes.findSome? fun n =>
    match n with
    | .pg p => some p
    | _ => none

/-- `errors.As(err, &echoErr)` with `echoErr : *echo.HTTPError`. -/
def asEcho (err : GoError) : Option (Nat × Option GoStr) :=
  err.nodes.findSome? fun n =>
    match n with
    | .echo code message => some (code, message)
    | _ => none

/-- `errors.Is(err, pgx.ErrNoRows) || errors.Is(err, sql.ErrNoRows)`. -/
def isNoRows (err : GoError) : Bool :=
  err.nodes.any fun n =>
    match n with
    | .noRowsSentinel => true
    | _ => false

/-- Wrap an `HttpError` as a Go error value (its `Error()` method returns the
message field). -/
def toGoError (h : HttpError) : GoError := { nodes := [.http h], msg := h.message }

/-- The pgx-specific body of `sqlerr.HandleError` (the branch entered when
`errors.As(err, &pgerr)` matched). -/
def handlePg (pgerr : PgError) : GoError :=
  let sqlErr := ConvertPgError pgerr
  let errorCode := generateErrorCode sqlErr.tableName sqlErr.kind
  let userMessage := formatUserFriendlyMessage sqlErr
  match sqlErr.kind with
  | .ForeignKeyViolation =>
    toGoError (BadRequestError userMessage false (some errorCode) [] none)
  | .UniqueViolation =>
    let columnName := extractColumnForUniqueViolation sqlErr.constraintName
    let userMessage :=
      if columnName ≠ [] then
        replaceAllG userMessage (gostr "identifier") (humanizeText columnName)
      else userMessage
    toGoError (BadRequestError userMessage true (some errorCode) [] none)
  | .NotNullViolation =>
    let fieldErrors : List FieldError :=
      [{ field := toLowerStr sqlErr.columnName, error := gostr "is required" }]
    toGoError (BadRequestError userMessage true (some errorCode) fieldErrors none)
  | .CheckViolation =>
    toGoError (BadRequestError userMessage true (some errorCode) [] none)
  | _ => toGoError InternalServerError

/-- `sqlerr.HandleError`: turn a database error into an application error. -/
def HandleError (err : GoError) : GoError :=
  if (asHttp err).isSome then err
  else
    match asPg err with
    | some pgerr => handlePg pgerr
    | none =>
      if isNoRows err then
        let errMsg := err.msg
        if goContains errMsg (gostr "table:") then
          let table := (splitSub ((splitSub errMsg (gostr "table:")).getD 1 []) (gostr ":")).getD 0 []
          let entityName := getEntityName table []
          toGoError (NotFoundError (entityName ++ gostr " not found") true none)
        else toGoError (NotFoundError (gostr "Resource not found") false none)
      else toGoError InternalServerError

/-- The envelope built and committed by `middleware.GlobalErrorHandler`.
Mirrors the source exactly, including the slip at global.go line 130 where
the result of `sqlerr.HandleError(err)` is discarded (the call has no effect
on `err`, so database errors fall through to the default 500 branch). -/
def resolveGlobal (err : GoError) : HttpError :=
  let err1 :=
    if (asHttp err).isSome then err
    else
      match asEcho err with
      | some (code, _) =>
        if code = 404 then toGoError (NotFoundError (gostr "Route not found") false none)
        else err
      | none =>
        -- source: `sqlerr.HandleError(err)` with the return value unused
        err
  match asHttp err1 with
  | some h =>
    { code := h.code
      status := h.status
      message := h.message
      override := h.override
      errors := h.errors
      action := h.action }
  | none =>
    match asEcho err1 with
    | some (code, message) =>
      { code := MakeUpperCaseWithUnderscores (statusText code)
        status := code
        message := message.getD (statusText code)
        override := false
        errors := []
        action := none }
    | none =>
      { code := MakeUpperCaseWithUnderscores (statusText 500)
        status := 500
        message := statusText 500
        override := false
        errors := []
        action := none }

/-! ## Response sink and committer -/

/-- The per-request response sink: echo's `c.Response()` restricted to the
committed flag and the envelopes actually written.  Writing via `c.JSON`
flushes the response and sets the committed flag. -/
structure Sink where
  committed : Bool
  writes : List HttpError
deriving DecidableEq

/-- The commit step of `GlobalErrorHandler`: write the envelope as JSON only
when nothing has been sent yet (`if !c.Response().Committed`). -/
def commitSink (s : Sink) (env : HttpError) : Sink :=
  if s.committed then s
  else { committed := true, writes := s.writes ++ [env] }

/-- A sequence of commit attempts against the same sink. -/
def commitMany (s : Sink) (envs : List HttpError) : Sink :=
  envs.foldl commitSink s

/-- Log severity buckets of the zerolog events used by the middleware. -/
inductive LogLevel where
  | error
  | warn
  | info
deriving DecidableEq

/-- One structured log line, restricted to what the claims inspect. -/
structure LogEntry where
  level : LogLevel
  hasStack : Bool
  status : Nat
  errorCode : GoStr
deriving DecidableEq

/-- `middleware.GlobalErrorHandler` end to end: resolve the envelope, emit
exactly one log line (the source always calls `logger.Error().Stack()`,
whatever the resolved status), then commit against the sink. -/
def GlobalErrorHandler (err : GoError) (sink : Sink) : Sink × List LogEntry :=
  let env := resolveGlobal err
  let logs : List LogEntry :=
    [{ level := .error, hasStack := true, status := env.status, errorCode := env.code }]
  (commitSink sink env, logs)

/-- The log-level choice of `middleware.RequestLogger` (global.go lines
72 to 80): bucket by response status. -/
def requestLoggerLevel (statusCode : Nat) : LogLevel :=
  if statusCode ≥ 500 then .error
  else if statusCode ≥ 400 then .warn
  else .info

/-! ## Validation translator (internal validation package) -/

/-- The `reflect.Kind` of a validated field, restricted to the distinction
the source draws (`err.Type().Kind() == reflect.String`). -/
inductive ReflectKind where
  | rString
  | rInt
  | rFloat
  | rOther
deriving DecidableEq

/-- One `validator.FieldError` of the tag-based validator, restricted to the
accessors the source reads: tag, parameter, field name and field type kind. -/
structure ValidatorFieldErr where
  tag : GoStr
  param : GoStr
  fieldName : GoStr
  typeKind : ReflectKind
deriving DecidableEq

/-- `validation.getValidationMessage`. -/
def getValidationMessage (err : ValidatorFieldErr) : GoStr :=
  let isString := err.typeKind = ReflectKind.rString
  if err.tag = gostr "required" then gostr "is required"
  else if err.tag = gostr "min" then
    if isString then gostr "must be at least " ++ err.param ++ gostr " characters"
    else gostr "must be at least " ++ err.param
  else if err.tag = gostr "max" then
    if isString then gostr "must not exceed " ++ err.param ++ gostr " characters"
    else gostr "must not exceed " ++ err.param
  else if err.tag = gostr "oneof" then gostr "must be one of: " ++ err.param
  else if err.tag = gostr "email" then gostr "must be a valid email address"
  else if err.tag = gostr "e164" then gostr "must be a valid phone number with country code"
  else if err.tag = gostr "uuid" then gostr "must be a valid UUID"
  else if err.tag = gostr "uuidList" then gostr "must be a comma-separated list of valid UUIDs"
  else if err.tag = gostr "dive" then gostr "some items are invalid"
  else
    let field := toLowerStr err.fieldName
    if err.param ≠ [] then field ++ gostr ": " ++ err.tag ++ gostr ":" ++ err.param
    else field ++ gostr ": " ++ err.tag

/-- A concrete driver error: a unique violation on table users raised by the
constraint unique_users_email. -/
def samplePgUnique : PgError :=
  { code := gostr "23505"
    severity := gostr "ERROR"
    message := gostr "duplicate key value violates unique constraint"
    schemaName := gostr "public"
    tableName := gostr "users"
    columnName := []
    dataTypeName := []
    constraintName := gostr "unique_users_email" }

/-- The concrete driver error above, as the error value reaching the boundary. -/
def sampleUniqueErr : GoError :=
  { nodes := [.pg samplePgUnique], msg := samplePgUnique.message }

/-- A concrete driver error: a not-null violation on column email of table
users. -/
def samplePgNotNull : PgError :=
  { code := gostr "23502"
    severity := gostr "ERROR"
    message := gostr "null value in column email violates not-null constraint"
    schemaName := gostr "public"
    tableName := gostr "users"
    columnName := gostr "email"
    dataTypeName := []
    constraintName := [] }

-- Scratch checks of the resolver pipeline.
example :
    HandleError sampleUniqueErr =
      toGoError (BadRequestError (gostr "A User with this Email already exists") true
        (some (gostr "USER_ALREADY_EXISTS")) [] none) := by decide

example : (resolveGlobal sampleUniqueErr).status = 500 := by decide

/-! ## Further concrete inputs used by witnesses and counterexamples -/

/-- A fresh response sink: nothing flushed yet. -/
def sinkFresh : Sink := { committed := false, writes := [] }

/-- A concrete domain envelope. -/
def sampleDomainEnvelope : HttpError :=
  BadRequestError (gostr "A User with this Email already exists") true
    (some (gostr "USER_ALREADY_EXISTS")) [] none

/-- An error chain carrying both a domain envelope and a wrapped storage
error (precedence rule 1 versus rule 3). -/
def sampleMixedChainErr : GoError :=
  { nodes := [.http sampleDomainEnvelope, .pg samplePgUnique]
    msg := sampleDomainEnvelope.message }

/-- A concrete client error reaching the boundary with a 400 envelope. -/
def sampleBadRequestErr : GoError :=
  toGoError (BadRequestError (gostr "invalid input") false none [] none)

/-- A `min` validation failure with parameter 8 on a text field. -/
def sampleMinOnString : ValidatorFieldErr :=
  { tag := gostr "min", param := gostr "8", fieldName := gostr "Password"
    typeKind := .rString }

/-- A `min` validation failure with parameter 8 on a numeric field. -/
def sampleMinOnInt : ValidatorFieldErr :=
  { tag := gostr "min", param := gostr "8", fieldName := gostr "Age"
    typeKind := .rInt }

-- Scratch checks of the classifier and heuristics.
example : getEntityName (gostr "users") [] = gostr "User" := by decide
example : getEntityName [] (gostr "customer_id") = gostr "Customer" := by decide
example : getEntityName [] [] = gostr "record" := by decide
example : extractColumnForUniqueViolation (gostr "unique_orders_email") = gostr "email" := by decide
example : extractColumnForUniqueViolation (gostr "orders_sku_key") = gostr "sku" := by decide
example : extractColumnForUniqueViolation [] = [] := by decide
example : generateErrorCode (gostr "users") Code.UniqueViolation = gostr "USER_ALREADY_EXISTS" := by decide

-- Scratch checks of the string machinery.
example : gostr "users" = [117, 115, 101, 114, 115] := by decide
example : toUpperStr (gostr "users") = gostr "USERS" := by decide
example : splitSub (gostr "unique_users_email") (gostr "_") =
    [gostr "unique", gostr "users", gostr "email"] := by decide
example : replaceAllG (gostr "a identifier b") (gostr "identifier") (gostr "Email") =
    gostr "a Email b" := by decide
example : goHasSuffix (gostr "customer_id") (gostr "_id") = true := by decide
example : goTrimSuffix (gostr "customer_id") (gostr "_id") = gostr "customer" := by decide
example : titleCaseAux true (gostr "customer name") = gostr "Customer Name" := by decide
example : MakeUpperCaseWithUnderscores (statusText 500) = gostr "INTERNAL_SERVER_ERROR" := by decide
example : MapDatabaseErrorCode (gostr "23505") = Code.UniqueViolation := by decide

/-! ## Theorems for the claims -/

/-- C4: the storage error classifier is total and maps exactly the eight
documented SQLSTATE codes to their Kinds, and every other code to Other. -/
theorem mapDatabaseErrorCode_total_table :
    (MapDatabaseErrorCode (gostr "40P01") = Code.DeadlockDetected ∧
      MapDatabaseErrorCode (gostr "23502") = Code.NotNullViolation ∧
      MapDatabaseErrorCode (gostr "52P02") = Code.TransactionFailed ∧
      MapDatabaseErrorCode (gostr "23514") = Code.CheckViolation ∧
      MapDatabaseErrorCode (gostr "23505") = Code.UniqueViolation ∧
      MapDatabaseErrorCode (gostr "23P01") = Code.ExcludeViolation ∧
      MapDatabaseErrorCode (gostr "23503") = Code.ForeignKeyViolation ∧
      MapDatabaseErrorCode (gostr "53300") = Code.TooManyConnections) ∧
    ∀ code : GoStr,
      code ≠ gostr "40P01" → code ≠ gostr "23502" → code ≠ gostr "52P02" →
      code ≠ gostr "23514" → code ≠ gostr "23505" → code ≠ gostr "23P01" →
      code ≠ gostr "23503" → code ≠ gostr "53300" →
      MapDatabaseErrorCode code = Code.Other := by
  refine ⟨by decide, ?_⟩
  intro code h1 h2 h3 h4 h5 h6 h7 h8
  simp only [MapDatabaseErrorCode, if_neg h1, if_neg h2, if_neg h3, if_neg h4,
    if_neg h5, if_neg h6, if_neg h7, if_neg h8]

/-- Witness for C4: an unlisted SQLSTATE code classifies as Other. -/
theorem mapDatabaseErrorCode_total_table_witness :
    MapDatabaseErrorCode (gostr "XX000") = Code.Other :=
  mapDatabaseErrorCode_total_table.2 (gostr "XX000") (by decide) (by decide)
    (by decide) (by decide) (by decide) (by decide) (by decide) (by decide)

/-- C10: `WithMessage` swaps only the message; every other field of the
produced envelope equals the corresponding field of the receiver (which the
pure model leaves untouched by construction). -/
theorem withMessage_replaces_only_message (e : HttpError) (m : GoStr) :
    (WithMessage e m).message = m ∧
    (WithMessage e m).code = e.code ∧
    (WithMessage e m).status = e.status ∧
    (WithMessage e m).override = e.override ∧
    (WithMessage e m).action = e.action ∧
    (WithMessage e m).errors = e.errors :=
  ⟨rfl, rfl, rfl, rfl, rfl, rfl⟩

/-- C8: a `min` tag translates to "must be at least {param} characters" on a
text field and to "must be at least {param}" on any other field type. -/
theorem getValidationMessage_min_tag (fe : ValidatorFieldErr)
    (htag : fe.tag = gostr "min") :
    getValidationMessage fe =
      if fe.typeKind = ReflectKind.rString then
        gostr "must be at least " ++ fe.param ++ gostr " characters"
      else gostr "must be at least " ++ fe.param := by
  unfold getValidationMessage
  rw [htag, if_neg (by decide : ¬(gostr "min" = gostr "required")), if_pos rfl]

/-- Witness for C8: param 8 on a text field and on a numeric field. -/
theorem getValidationMessage_min_tag_witness :
    getValidationMessage sampleMinOnString = gostr "must be at least 8 characters" ∧
    getValidationMessage sampleMinOnInt = gostr "must be at least 8" := by
  have h1 := getValidationMessage_min_tag sampleMinOnString (by decide)
  have h2 := getValidationMessage_min_tag sampleMinOnInt (by decide)
  exact ⟨by rw [h1]; decide, by rw [h2]; decide⟩

/-- Once a sink is committed, further commit attempts leave it unchanged. -/
theorem commitMany_of_committed (s : Sink) (envs : List HttpError)
    (h : s.committed = true) : commitMany s envs = s := by
  induction envs with
  | nil => rfl
  | cons e es ih =>
    show commitMany (commitSink s e) es = s
    have hs : commitSink s e = s := by rw [commitSink, if_pos h]
    rw [hs, ih]

/-- C2: the committer writes the envelope iff the sink has not begun a
response; after any commit the sink is committed, and a sequence of commits
starting from an uncommitted sink writes exactly the first envelope. -/
theorem commitSink_writes_iff_uncommitted (s : Sink) (e e1 : HttpError)
    (envs : List HttpError) :
    ((commitSink s e).writes = if s.committed then s.writes else s.writes ++ [e]) ∧
    ((commitSink s e).committed = true) ∧
    (s.committed = false →
      (commitMany s (e1 :: envs)).writes = s.writes ++ [e1]) := by
  refine ⟨?_, ?_, ?_⟩
  · by_cases h : s.committed = true
    · rw [commitSink, if_pos h, if_pos h]
    · rw [commitSink, if_neg h, if_neg h]
  · by_cases h : s.committed = true
    · rw [commitSink, if_pos h]; exact h
    · rw [commitSink, if_neg h]
  · intro h
    show (commitMany (commitSink s e1) envs).writes = s.writes ++ [e1]
    have hs : commitSink s e1 = { committed := true, writes := s.writes ++ [e1] } := by
      rw [commitSink, if_neg (by rw [h]; exact Bool.false_ne_true)]
    rw [hs, commitMany_of_committed _ _ rfl]

/-- Witness for C2: committing two different envelopes on a fresh sink
writes exactly the first. -/
theorem commitSink_writes_iff_uncommitted_witness :
    (commitMany sinkFresh
        [InternalServerError, BadRequestError (gostr "invalid input") false none [] none]).writes
      = [InternalServerError] := by
  have h := (commitSink_writes_iff_uncommitted sinkFresh InternalServerError
    InternalServerError [BadRequestError (gostr "invalid input") false none [] none]).2.2 rfl
  simpa using h

/-- C3: an error that already carries a domain envelope in its chain passes
through the boundary resolver unchanged (all six envelope fields preserved),
whatever else the chain contains. -/
theorem resolveGlobal_domain_envelope_passthrough (err : GoError) (h : HttpError)
    (hh : asHttp err = some h) :
    resolveGlobal err = h := by
  simp [resolveGlobal, hh]

/-- Witness for C3: a chain holding both a domain envelope and a wrapped
storage error resolves to the domain envelope (rule 1 before rule 3). -/
theorem resolveGlobal_domain_envelope_passthrough_witness :
    resolveGlobal sampleMixedChainErr = sampleDomainEnvelope :=
  resolveGlobal_domain_envelope_passthrough sampleMixedChainErr sampleDomainEnvelope
    (by decide)

/-- C1 (code bug witness): a recognized storage-engine error of Kind
UniqueViolation reaches the boundary; `sqlerr.HandleError` classifies it to a
400 envelope, but `GlobalErrorHandler` discards that result (global.go line
130), so the resolved envelope is the generic 500. -/
theorem globalErrorHandler_discards_storage_classification :
    MapDatabaseErrorCode samplePgUnique.code = Code.UniqueViolation ∧
    (asHttp (HandleError sampleUniqueErr)).map HttpError.status = some 400 ∧
    (resolveGlobal sampleUniqueErr).status = 500 ∧
    (resolveGlobal sampleUniqueErr).code = gostr "INTERNAL_SERVER_ERROR" ∧
    (resolveGlobal sampleUniqueErr).message = gostr "Internal Server Error" := by
  decide

/-- C9 counterexample: committing a 400 envelope, the committer logs at
error level, not at the warning level the status bucket prescribes. -/
theorem committerLog_not_bucketed_counterexample :
    (resolveGlobal sampleBadRequestErr).status = 400 ∧
    (GlobalErrorHandler sampleBadRequestErr sinkFresh).2.map LogEntry.level
      = [LogLevel.error] ∧
    requestLoggerLevel 400 = LogLevel.warn ∧
    LogLevel.error ≠ LogLevel.warn := by
  decide

/-- The formatter on a unique violation. -/
theorem formatUserFriendlyMessage_unique (e : SqlError)
    (hk : e.kind = Code.UniqueViolation) :
    formatUserFriendlyMessage e =
      gostr "A " ++ getEntityName e.tableName e.columnName ++
        gostr " with this identifier already exists" := by
  unfold formatUserFriendlyMessage
  rw [hk]

/-- The formatter on a not-null violation. -/
theorem formatUserFriendlyMessage_notNull (e : SqlError)
    (hk : e.kind = Code.NotNullViolation) :
    formatUserFriendlyMessage e =
      gostr "The " ++
        (if humanizeText e.columnName = [] then gostr "field"
         else humanizeText e.columnName) ++ gostr " is required" := by
  unfold formatUserFriendlyMessage
  rw [hk]

/-- A driver error wrapped as the error value reaching `HandleError` is
dispatched to the pgx branch. -/
theorem handleError_on_pg (p : PgError) (m : GoStr) :
    HandleError { nodes := [.pg p], msg := m } = handlePg p := rfl

/-- C5: for a storage error of Kind UniqueViolation whose constraint yields
an extractable field name, the produced envelope replaces "identifier" in
the message with the humanized field name, has override true and carries no
field errors. -/
theorem handleError_unique_spec (p : PgError) (m : GoStr)
    (hk : MapDatabaseErrorCode p.code = Code.UniqueViolation)
    (hcol : extractColumnForUniqueViolation p.constraintName ≠ []) :
    HandleError { nodes := [.pg p], msg := m } =
      toGoError (BadRequestError
        (replaceAllG
          (gostr "A " ++ getEntityName p.tableName p.columnName ++
            gostr " with this identifier already exists")
          (gostr "identifier")
          (humanizeText (extractColumnForUniqueViolation p.constraintName)))
        true
        (some (generateErrorCode p.tableName Code.UniqueViolation))
        [] none) := by
  have hk2 : (ConvertPgError p).kind = Code.UniqueViolation := hk
  rw [handleError_on_pg]
  simp only [handlePg, hk2]
  rw [formatUserFriendlyMessage_unique _ hk2]
  simp only [ConvertPgError, ne_eq, hcol, not_false_eq_true, ite_true]

/-- Witness for C5: constraint unique_users_email on table users replaces
"identifier" with "Email" and sets override true with empty fields. -/
theorem handleError_unique_spec_witness :
    HandleError sampleUniqueErr =
      toGoError (BadRequestError (gostr "A User with this Email already exists")
        true (some (gostr "USER_ALREADY_EXISTS")) [] none) := by
  have h := handleError_unique_spec samplePgUnique samplePgUnique.message
    (by decide) (by decide)
  rw [show sampleUniqueErr = { nodes := [.pg samplePgUnique], msg := samplePgUnique.message } from rfl, h]
  decide

/-- C6: for a storage error of Kind NotNullViolation the message is
"The {field} is required" with the humanized column name (fallback "field"),
and the envelope carries exactly one field error with the lower-cased column
name and the text "is required". -/
theorem handleError_notNull_spec (p : PgError) (m : GoStr)
    (hk : MapDatabaseErrorCode p.code = Code.NotNullViolation) :
    HandleError { nodes := [.pg p], msg := m } =
      toGoError (BadRequestError
        (gostr "The " ++
          (if humanizeText p.columnName = [] then gostr "field"
           else humanizeText p.columnName) ++ gostr " is required")
        true
        (some (generateErrorCode p.tableName Code.NotNullViolation))
        [{ field := toLowerStr p.columnName, error := gostr "is required" }]
        none) := by
  have hk2 : (ConvertPgError p).kind = Code.NotNullViolation := hk
  rw [handleError_on_pg]
  simp only [handlePg, hk2]
  rw [formatUserFriendlyMessage_notNull _ hk2]
  simp only [ConvertPgError]

/-- Witness for C6: a not-null violation on column email produces message
"The Email is required" and exactly the field error on field email. -/
theorem handleError_notNull_spec_witness :
    HandleError { nodes := [.pg samplePgNotNull], msg := samplePgNotNull.message } =
      toGoError (BadRequestError (gostr "The Email is required") true
        (some (gostr "USER_REQUIRED"))
        [{ field := gostr "email", error := gostr "is required" }] none) := by
  have h := handleError_notNull_spec samplePgNotNull samplePgNotNull.message (by decide)
  rw [h]
  decide

/-- Lower-casing is idempotent on code points. -/
theorem asciiLower_asciiLower (n : Nat) :
    asciiLower (asciiLower n) = asciiLower n := by
  unfold asciiLower
  split_ifs <;> omega

/-- Upper-casing after lower-casing equals upper-casing. -/
theorem asciiUpper_asciiLower (n : Nat) :
    asciiUpper (asciiLower n) = asciiUpper n := by
  unfold asciiUpper asciiLower
  split_ifs <;> omega

/-- Underscore replacement commutes with lower-casing. -/
theorem underscoreToSpace_asciiLower (n : Nat) :
    underscoreToSpace (asciiLower n) = asciiLower (underscoreToSpace n) := by
  unfold underscoreToSpace asciiLower
  split_ifs <;> omega

/-- Lower-casing maps no code point onto the space. -/
theorem asciiLower_eq_space (n : Nat) : asciiLower n = 32 ↔ n = 32 := by
  unfold asciiLower
  split_ifs <;> omega

/-- Title-casing is insensitive to prior lower-casing. -/
theorem titleCaseAux_map_asciiLower (b : Bool) (l : GoStr) :
    titleCaseAux b (l.map asciiLower) = titleCaseAux b l := by
  induction l generalizing b with
  | nil => rfl
  | cons c cs ih =>
    simp only [List.map_cons, titleCaseAux]
    by_cases hc : c = 32
    · subst hc
      rw [if_pos (by decide : asciiLower 32 = 32), if_pos rfl, ih]
    · rw [if_neg (fun h => hc ((asciiLower_eq_space c).mp h)), if_neg hc, ih]
      cases b <;> simp [asciiLower_asciiLower, asciiUpper_asciiLower]

/-- Humanizing is insensitive to prior lower-casing. -/
theorem humanizeText_map_asciiLower (l : GoStr) :
    humanizeText (l.map asciiLower) = humanizeText l := by
  unfold humanizeText
  by_cases hl : l = []
  · subst hl; rfl
  · rw [if_neg (fun h => hl (List.map_eq_nil_iff.mp h)), if_neg hl,
      List.map_map,
      show underscoreToSpace ∘ asciiLower = asciiLower ∘ underscoreToSpace from
        funext underscoreToSpace_asciiLower,
      ← List.map_map]
    exact titleCaseAux_map_asciiLower true _

/-- The entity-name heuristic as the specification words it: a column name
ending in the three characters underscore-i-d (case-insensitively) wins and
its humanized remainder after stripping that suffix is returned; otherwise a
non-empty table name is humanized with one trailing s stripped when longer
than one character; otherwise the literal fallback record. -/
def entityNameSpec (tableName columnName : GoStr) : GoStr :=
  if goHasSuffix (toLowerStr columnName) (gostr "_id") then
    humanizeText (columnName.take (columnName.length - 3))
  else if tableName ≠ [] then
    humanizeText
      (if goHasSuffix tableName (gostr "s") ∧ tableName.length > 1 then
        tableName.take (tableName.length - 1)
      else tableName)
  else gostr "record"

/-- C7: the source entity-name heuristic coincides with the specification
reading on every pair of identifiers, and on the three documented examples. -/
theorem getEntityName_matches_spec :
    (∀ tableName columnName : GoStr,
      getEntityName tableName columnName = entityNameSpec tableName columnName) ∧
    getEntityName (gostr "users") [] = gostr "User" ∧
    getEntityName [] (gostr "customer_id") = gostr "Customer" ∧
    getEntityName [] [] = gostr "record" := by
  refine ⟨?_, by decide, by decide, by decide⟩
  intro t c
  unfold getEntityName entityNameSpec
  by_cases hsuf : goHasSuffix (toLowerStr c) (gostr "_id") = true
  · have heq : (toLowerStr c).drop ((toLowerStr c).length - (gostr "_id").length)
        = gostr "_id" := by
      have h := hsuf
      rw [goHasSuffix] at h
      exact beq_iff_eq.mp h
    have hclen : 3 ≤ c.length := by
      have hlen := congrArg List.length heq
      simp only [List.length_drop, toLowerStr, List.length_map] at hlen
      have h3 : (gostr "_id").length = 3 := by decide
      rw [h3] at hlen
      omega
    have hc : c ≠ [] := by
      intro h
      subst h
      simp at hclen
    rw [if_pos ⟨hc, hsuf⟩, if_pos hsuf, goTrimSuffix, if_pos hsuf]
    have h1 : (toLowerStr c).length = c.length := by
      simp [toLowerStr]
    have h3 : (gostr "_id").length = 3 := by decide
    rw [h1, h3, toLowerStr, ← List.map_take]
    exact humanizeText_map_asciiLower _
  · rw [if_neg (fun h => hsuf h.2), if_neg hsuf]

/-- C9 (amended): the committer logs exactly once per commit, always at
error level with the original error attached with its stack, and carrying the
resolved status and code; the status-bucketed severity choice (at least 500
to error, 400 to 499 to warning, else info) is made by the request-logger
middleware, not by the committer. -/
theorem committer_always_logs_error_level (err : GoError) (s : Sink) :
    (GlobalErrorHandler err s).2 =
      [{ level := .error, hasStack := true, status := (resolveGlobal err).status,
         errorCode := (resolveGlobal err).code }] ∧
    requestLoggerLevel 500 = LogLevel.error ∧
    requestLoggerLevel 400 = LogLevel.warn ∧
    requestLoggerLevel 200 = LogLevel.info :=
  ⟨rfl, by decide, by decide, by decide⟩

end GoStarter
